import Mathlib

/-!
Verification development for the ONDC onboarding server (src/server.js).

The source is a single Express application. Its request handlers are pure
functions of the parsed JSON request body, the outcome of the external
cryptographic primitives, and the outcome of the upstream HTTP call, so each
handler is embedded as a Lean function over those inputs. External library
behaviour (Node crypto, libsodium, the ondc-crypto-sdk-nodejs header codec,
axios resolution) is modelled explicitly where the spec reconstructs it.
-/

namespace Onboarding

/-- JSON-like values as produced by the Express JSON body parser, with enough
structure to express the JavaScript truthiness tests the handlers perform. -/
inductive JsVal where
  | undefined : JsVal
  | null : JsVal
  | bool : Bool → JsVal
  | num : Int → JsVal
  | str : String → JsVal
  | arr : List JsVal → JsVal
  | obj : List (String × JsVal) → JsVal

/-- Field lookup in a JSON object field list; absent fields read as undefined,
as in JavaScript property access. -/
def jlookup : List (String × JsVal) → String → JsVal
  | [], _ => .undefined
  | (k, v) :: rest, key => if k = key then v else jlookup rest key

/-- JavaScript property access `v[key]` on a parsed body. -/
def jget : JsVal → String → JsVal
  | .obj fs, key => jlookup fs key
  | _, _ => .undefined

/-- JavaScript array indexing `v[i]`. -/
def jidx : JsVal → Nat → JsVal
  | .arr xs, i => xs.getD i .undefined
  | _, _ => .undefined

/-- JavaScript truthiness of a JSON value: undefined, null, false, 0 and the
empty string are falsy; objects and arrays are always truthy. -/
def truthy : JsVal → Bool
  | .undefined => false
  | .null => false
  | .bool b => b
  | .num n => n != 0
  | .str s => s != ""
  | .arr _ => true
  | .obj _ => true

/-- A response body: either a JSON document (res.json) or plain text
(res.send on a string). -/
inductive RespBody where
  | json : JsVal → RespBody
  | text : String → RespBody

/-- An HTTP response as produced by a handler: status code, the content type
when the handler sets one explicitly, and the body. -/
structure Response where
  status : Nat
  contentType : Option String
  body : RespBody

/-- An upstream HTTP response observed by axios: status code and parsed body
(response.data). -/
structure UpstreamResult where
  status : Nat
  data : JsVal

/-- Outcome of an axios POST: either an HTTP response from the upstream, or a
transport-level failure with no response at all. -/
inductive AxiosOutcome where
  | response : UpstreamResult → AxiosOutcome
  | transportFailure : String → AxiosOutcome

/-- Axios default validateStatus: the returned promise resolves exactly when
the upstream status is in [200, 300); other statuses reject and land in the
catch block with error.response set. -/
def axiosResolves (s : Nat) : Bool := decide (200 ≤ s) && decide (s < 300)

/-! ### Base64 decoding

Modelled from the spec: the source decodes the challenge from base64 inside
Node's `decipher.update(encrypted, 'base64')`, an external primitive. The
spec (§4.2) states the decryptor fails when the input is not valid base64, so
decoding is modelled as a strict RFC 4648 base64 decoder. -/

/-- Value of a single base64 alphabet character, none for any other
character. -/
def b64Val? (c : Char) : Option Nat :=
  if 'A' ≤ c ∧ c ≤ 'Z' then some (c.toNat - 65)
  else if 'a' ≤ c ∧ c ≤ 'z' then some (c.toNat - 97 + 26)
  else if '0' ≤ c ∧ c ≤ '9' then some (c.toNat - 48 + 52)
  else if c = '+' then some 62
  else if c = '/' then some 63
  else none

/-- Decode a base64 character stream four characters at a time; padding with
one or two trailing = characters is accepted only in the final group. -/
def base64DecodeChunks : List Char → Option (List Nat)
  | [] => some []
  | a :: b :: c :: d :: rest =>
    match b64Val? a, b64Val? b with
    | some va, some vb =>
      if c = '=' then
        if d = '=' ∧ rest = [] then some [va * 4 + vb / 16] else none
      else
        match b64Val? c with
        | some vc =>
          if d = '=' then
            if rest = [] then some [va * 4 + vb / 16, vb % 16 * 16 + vc / 4] else none
          else
            match b64Val? d with
            | some vd =>
              match base64DecodeChunks rest with
              | some bs =>
                some ((va * 4 + vb / 16) :: (vb % 16 * 16 + vc / 4) :: (vc % 4 * 64 + vd) :: bs)
              | none => none
            | none => none
        | none => none
    | _, _ => none
  | _ => none

/-- Strict base64 decoding of a string to bytes. -/
def base64Decode? (s : String) : Option (List Nat) :=
  base64DecodeChunks s.data

/-! ### AES-256-ECB challenge decryption (decryptAES256ECB, source lines
672-684) -/

/-- Modelled from the spec: the AES-256 block transformation and the UTF-8
text decoding performed by Node crypto are external primitives; the spec
(§4.2) treats the block cipher as an abstract 256-bit-key block cipher in ECB
mode. decryptBlock takes the 32-byte key and one 16-byte ciphertext block. -/
structure AesPrims where
  decryptBlock : List Nat → List Nat → List Nat
  utf8Decode : List Nat → String

/-- ECB-mode decryption: apply the block decryption to each consecutive
16-byte block and concatenate. -/
def decryptBlocks (dec : List Nat → List Nat) (l : List Nat) : List Nat :=
  ((List.range (l.length / 16)).map (fun i => dec ((l.drop (16 * i)).take 16))).flatten

/-- PKCS#7 unpadding as performed by decipher.final: the last byte p must be
between 1 and 16 and the last p bytes must all equal p; otherwise the
decryption fails. -/
def pkcs7Unpad? (bs : List Nat) : Option (List Nat) :=
  match bs.getLast? with
  | none => none
  | some p =>
    if 1 ≤ p ∧ p ≤ 16 ∧ p ≤ bs.length ∧ (bs.drop (bs.length - p)).all (fun b => b == p) then
      some (bs.take (bs.length - p))
    else none

/-- decryptAES256ECB (source lines 672-684): decode the base64 challenge,
decrypt it blockwise under AES-256-ECB with the shared key, strip the PKCS#7
padding and decode the plaintext as UTF-8. Node raises inside the try block
when the key is not 32 bytes (createDecipheriv), when the ciphertext is
malformed, or when the padding is invalid; every such failure is rethrown as
the single error message used by the source. -/
def decryptAES256ECB (A : AesPrims) (key : List Nat) (encrypted : String) :
    Except String String :=
  if key.length = 32 then
    match base64Decode? encrypted with
    | none => .error "Failed to decrypt challenge"
    | some ct =>
      if ct.length % 16 = 0 then
        match pkcs7Unpad? (decryptBlocks (A.decryptBlock key) ct) with
        | none => .error "Failed to decrypt challenge"
        | some pt => .ok (A.utf8Decode pt)
      else .error "Failed to decrypt challenge"
  else .error "Failed to decrypt challenge"

/-! ### Ed25519 message signing (signMessage, source lines 687-702) -/

/-- signMessage (source lines 687-702): sign the signing string with the
base64-decoded Ed25519 private key via libsodium. The libsodium detached
signature is an external primitive, modelled as a function from
(signingString, privateKeyB64) to an optional base64 signature; when the
primitive fails (for example the key is not a valid seed) the source rethrows
the single error message below. -/
def signMessage (sodiumSign : String → String → Option String)
    (signingString privateKey : String) : Except String String :=
  match sodiumSign signingString privateKey with
  | some sig => .ok sig
  | none => .error "Failed to sign message"

/-! ### Authorization header codec

Modelled from the spec: createAuthorizationHeader and isHeaderValid are
imported from the external ondc-crypto-sdk-nodejs package and are opaque in
the source; the spec (§4.4) reconstructs the protocol, which is embedded
here over abstract digest and signature primitives. -/

/-- Modelled from the spec: the BLAKE-512 digest and the Ed25519 signing and
verification primitives used by the header codec. blake512b64 maps a body to
the base64 of its BLAKE-512 digest; sign takes (privateKey, message);
verify takes (publicKey, message, signature). -/
structure SigPrims where
  blake512b64 : String → String
  sign : String → String → String
  verify : String → String → String → Bool

/-- The parsed fields of a signed Authorization header (spec §3,
SigningEnvelope). -/
structure SignedHeader where
  keyId : String
  algorithm : String
  created : Nat
  expires : Nat
  headersField : String
  signature : String

/-- The canonical signing string of spec §4.4 step 3: one line per covered
field, newline-joined, no trailing newline. -/
def signingString (created expires : Nat) (digest : String) : String :=
  "(created): " ++ toString created ++ "\n(expires): " ++ toString expires ++
    "\ndigest: BLAKE-512=" ++ digest

/-- Modelled from the spec (§4.4 Build): digest the body, stamp the validity
window, sign the canonical signing string, and emit the header fields. -/
def createAuthorizationHeader (P : SigPrims)
    (body privateKey subscriberId subscriberUniqueKeyId : String)
    (now ttl : Nat) : SignedHeader :=
  let digest := P.blake512b64 body
  { keyId := subscriberId ++ "|" ++ subscriberUniqueKeyId ++ "|ed25519"
    algorithm := "ed25519"
    created := now
    expires := now + ttl
    headersField := "(created) (expires) digest"
    signature := P.sign privateKey (signingString now (now + ttl) digest) }

/-- Modelled from the spec (§4.4 Verify): recompute the digest over the body,
reject outside the validity window, rebuild the canonical signing string from
the parsed fields and verify the signature against the public key. -/
def isHeaderValid (P : SigPrims) (header : SignedHeader)
    (body publicKey : String) (now : Nat) : Bool :=
  let digest := P.blake512b64 body
  decide (header.created ≤ now) && decide (now ≤ header.expires) &&
    P.verify publicKey (signingString header.created header.expires digest)
      header.signature

/-! ### Request handlers -/

/-- The on_subscribe handler (source lines 222-242): 400 when the challenge
field is falsy, otherwise decrypt it with the shared key; 200 with the answer
on success, 500 with a generic message when decryption throws. A truthy
non-string challenge makes decipher.update throw, which lands in the same
catch block. -/
def onSubscribeHandler (A : AesPrims) (sharedKey : List Nat) (body : JsVal) :
    Response :=
  if truthy (jget body "challenge") then
    match jget body "challenge" with
    | .str ch =>
      match decryptAES256ECB A sharedKey ch with
      | .ok answer => ⟨200, none, .json (.obj [("answer", .str answer)])⟩
      | .error _ => ⟨500, none, .json (.obj [("error", .str "Internal server error")])⟩
    | _ => ⟨500, none, .json (.obj [("error", .str "Internal server error")])⟩
  else ⟨400, none, .json (.obj [("error", .str "Challenge is required")])⟩

/-- The /ondc-site-verification.html handler (source lines 301-315): sign the
request id, substitute every occurrence of the placeholder in the fixed HTML
template, and serve it as text/html; 500 plain text on signing failure. -/
def htmlFile : String :=
  "\n<!--Contents of ondc-site-verification.html. -->\n<html>\n  <head>\n    <meta\n      name=\"ondc-site-verification\"\n      content=\"SIGNED_UNIQUE_REQ_ID\"\n    />\n  </head>\n  <body>\n    ONDC Site Verification Page\n  </body>\n</html>\n"

/-- Replace every occurrence of a pattern in a character list, left to right,
without rescanning replaced text, as the global regex replace in the source
does. -/
def replaceAllAux (pat rep : List Char) : List Char → List Char
  | [] => []
  | c :: rest =>
    if pat ≠ [] ∧ pat.isPrefixOf (c :: rest) then
      rep ++ replaceAllAux pat rep (List.drop (pat.length - 1) rest)
    else c :: replaceAllAux pat rep rest
termination_by l => l.length
decreasing_by
  all_goals simp [List.length_drop]
  omega

/-- String.replace with a global pattern, as in
htmlFile.replace(/SIGNED_UNIQUE_REQ_ID/g, signedContent). -/
def replaceAll (s pat rep : String) : String :=
  ⟨replaceAllAux pat.data rep.data s.data⟩

/-- The site verification handler itself, parameterised by the libsodium
signing primitive and the configured request id and signing key. -/
def siteVerificationHandler (sodiumSign : String → String → Option String)
    (requestId signingPrivateKey : String) : Response :=
  match signMessage sodiumSign requestId signingPrivateKey with
  | .ok signedContent =>
    ⟨200, some "text/html", .text (replaceAll htmlFile "SIGNED_UNIQUE_REQ_ID" signedContent)⟩
  | .error _ => ⟨500, none, .text "Internal server error"⟩

/-- The /lookup handler (source lines 246-295): build the signed header (a
failure there lands in the catch block), log but never branch on the
self-verification result, forward to the registry and answer 200 with the
upstream body; every caught error answers 500 with the upstream response
data as details when a response exists (error.response?.data), and no
details field otherwise. -/
def lookupHandler (authHeader : Except String String) (_isValid : Bool)
    (upstream : AxiosOutcome) : Response :=
  match authHeader with
  | .error _ => ⟨500, none, .json (.obj [("error", .str "Failed to perform lookup")])⟩
  | .ok _ =>
    match upstream with
    | .response r =>
      if axiosResolves r.status then ⟨200, none, .json r.data⟩
      else
        ⟨500, none, .json (.obj [("error", .str "Failed to perform lookup"), ("details", r.data)])⟩
    | .transportFailure _ =>
      ⟨500, none, .json (.obj [("error", .str "Failed to perform lookup")])⟩

/-- The /search handler (source lines 330-424): a falsy country, city or
message is answered 500 with a fixed details string before anything else;
then the payload is signed (a signing failure lands in the catch block),
self-verified (500 on an invalid header), and forwarded to the gateway;
200 wraps the upstream data, a caught upstream error answers 500 with
error.response?.data or error.message as details. -/
def searchHandler (body : JsVal) (signed : Except String String)
    (isValid : Bool) (upstream : AxiosOutcome) : Response :=
  if !truthy (jget body "country") || !truthy (jget body "city") ||
      !truthy (jget body "message") then
    ⟨500, none, .json (.obj [("error", .str "Search request failed"),
      ("details", .str "missing items in request body")])⟩
  else
    match signed with
    | .error e =>
      ⟨500, none, .json (.obj [("error", .str "Search request failed"), ("details", .str e)])⟩
    | .ok _ =>
      if !isValid then
        ⟨500, none, .json (.obj [("error", .str "Search request failed"),
          ("details", .str "Invalid authHeader")])⟩
      else
        match upstream with
        | .response r =>
          if axiosResolves r.status then
            ⟨200, none, .json (.obj [("message", .str "Search request sent successfully to ONDC gateway"),
              ("data", r.data)])⟩
          else
            ⟨500, none, .json (.obj [("error", .str "Search request failed"), ("details", r.data)])⟩
        | .transportFailure m =>
          ⟨500, none, .json (.obj [("error", .str "Search request failed"), ("details", .str m)])⟩

/-- The /select handler (source lines 496-598): a falsy country, city,
transaction_id or message is answered 400 with a details string naming the
candidate fields; then the payload is signed, self-verified (401 on an
invalid header), and forwarded to the hard-coded BPP; 200 wraps the upstream
data, a caught error answers 500. -/
def selectHandler (body : JsVal) (signed : Except String String)
    (isValid : Bool) (upstream : AxiosOutcome) : Response :=
  if !truthy (jget body "country") || !truthy (jget body "city") ||
      !truthy (jget body "transaction_id") || !truthy (jget body "message") then
    ⟨400, none, .json (.obj [("error", .str "Select request failed"),
      ("details", .str "Missing country, city, transaction_id, or message in request body")])⟩
  else
    match signed with
    | .error e =>
      ⟨500, none, .json (.obj [("error", .str "Select request failed"), ("details", .str e)])⟩
    | .ok _ =>
      if !isValid then
        ⟨401, none, .json (.obj [("error", .str "Select request failed"),
          ("details", .str "Invalid authorization header")])⟩
      else
        match upstream with
        | .response r =>
          if axiosResolves r.status then
            ⟨200, none, .json (.obj [("message", .str "Select request sent successfully to ONDC BPP"),
              ("data", r.data)])⟩
          else
            ⟨500, none, .json (.obj [("error", .str "Select request failed"), ("details", r.data)])⟩
        | .transportFailure m =>
          ⟨500, none, .json (.obj [("error", .str "Select request failed"), ("details", .str m)])⟩

/-- The on_search callback handler (source lines 428-492): the body is
destructured first and a falsy context or message is answered 400; only then
is the Authorization header read (401 when falsy) and verified against the
gateway public key (401 when invalid); on success the catalog, or an empty
object when the catalog is falsy, is echoed back with 200. -/
def onSearchHandler (body : JsVal) (authorization : Option String)
    (isValid : Bool) : Response :=
  if !truthy (jget body "context") || !truthy (jget body "message") then
    ⟨400, none, .json (.obj [("error", .str "Missing context or message in request body")])⟩
  else
    match authorization with
    | none => ⟨401, none, .json (.obj [("error", .str "Missing authorization header")])⟩
    | some a =>
      if a = "" then
        ⟨401, none, .json (.obj [("error", .str "Missing authorization header")])⟩
      else if !isValid then
        ⟨401, none, .json (.obj [("error", .str "Invalid authorization header")])⟩
      else
        ⟨200, none, .json (.obj [("message", .str "Search results received successfully"),
          ("data", if truthy (jget (jget body "message") "catalog") then
            jget (jget body "message") "catalog" else .obj [])])⟩

/-- The on_select callback handler (source lines 600-663): identical
validation and authorization sequence to on_search, but the success path
stringifies the identifier selectResult while the declared variable is
selectResults; evaluating the undefined identifier throws a ReferenceError
inside the try block, so the handler always falls into the catch and answers
500 with the error message as details. -/
def onSelectCallbackHandler (body : JsVal) (authorization : Option String)
    (isValid : Bool) : Response :=
  if !truthy (jget body "context") || !truthy (jget body "message") then
    ⟨400, none, .json (.obj [("error", .str "Missing context or message in request body")])⟩
  else
    match authorization with
    | none => ⟨401, none, .json (.obj [("error", .str "Missing authorization header")])⟩
    | some a =>
      if a = "" then
        ⟨401, none, .json (.obj [("error", .str "Missing authorization header")])⟩
      else if !isValid then
        ⟨401, none, .json (.obj [("error", .str "Invalid authorization header")])⟩
      else
        ⟨500, none, .json (.obj [("error", .str "Failed to process select results"),
          ("details", .str "selectResult is not defined")])⟩

/-! ### The /subscribe registration payload (source lines 137-219) -/

/-- The configuration the /subscribe handler reads: the environment variables
it interpolates and the timestamps generated per request. mobileNo models
parseInt(MOBILE_NO). subscriberUrl carries the SUBSCRIBER_URL environment
variable; the payload below never reads it. -/
structure SubscribeConfig where
  requestId : String
  timestamp : String
  legalEntityName : String
  businessAddress : String
  cityCode : String
  gstNo : String
  panName : String
  panNo : String
  panDate : String
  nameOfAuthorisedSignatory : String
  addressOfAuthorisedSignatory : String
  emailId : String
  mobileNo : Int
  country : String
  subscriberId : String
  uniqueKeyId : String
  callbackUrl : String
  signingPublicKey : String
  encryptionPublicKey : String
  validFrom : String
  validUntil : String
  subscriberUrl : String
  domain : String

/-- The registration payload the /subscribe handler posts to the registry
(source lines 149-199), field for field. The network_participant entry
carries the literal string for subscriber_url that the source hard-codes. -/
def subscribePayload (c : SubscribeConfig) : JsVal :=
  .obj [
    ("context", .obj [("operation", .obj [("ops_no", .num 1)])]),
    ("message", .obj [
      ("request_id", .str c.requestId),
      ("timestamp", .str c.timestamp),
      ("entity", .obj [
        ("gst", .obj [
          ("legal_entity_name", .str c.legalEntityName),
          ("business_address", .str c.businessAddress),
          ("city_code", .arr [.str c.cityCode]),
          ("gst_no", .str c.gstNo)]),
        ("pan", .obj [
          ("name_as_per_pan", .str c.panName),
          ("pan_no", .str c.panNo),
          ("date_of_incorporation", .str c.panDate)]),
        ("name_of_authorised_signatory", .str c.nameOfAuthorisedSignatory),
        ("address_of_authorised_signatory", .str c.addressOfAuthorisedSignatory),
        ("email_id", .str c.emailId),
        ("mobile_no", .num c.mobileNo),
        ("country", .str c.country),
        ("subscriber_id", .str c.subscriberId),
        ("unique_key_id", .str c.uniqueKeyId),
        ("callback_url", .str c.callbackUrl),
        ("key_pair", .obj [
          ("signing_public_key", .str c.signingPublicKey),
          ("encryption_public_key", .str c.encryptionPublicKey),
          ("valid_from", .str c.validFrom),
          ("valid_until", .str c.validUntil)])]),
      ("network_participant", .arr [
        .obj [
          ("subscriber_url", .str "/bapl"),
          ("domain", .str c.domain),
          ("type", .str "buyerApp"),
          ("msn", .bool false),
          ("city_code", .arr [.str c.cityCode])]])])]

/-! ### Concrete primitive instances used to exercise the handlers -/

/-- A concrete block-cipher instance: the identity block transformation and a
constant text decoder. -/
def aes0 : AesPrims where
  decryptBlock := fun _ b => b
  utf8Decode := fun _ => "plain"

/-- A concrete 32-byte shared key. -/
def key0 : List Nat := List.replicate 32 0

/-- A concrete digest and signature primitive instance in which verification
recomputes the signature from the key and the message. -/
def sig0 : SigPrims where
  blake512b64 := fun s => s ++ "#digest"
  sign := fun key msg => key ++ "#" ++ msg
  verify := fun pub msg s => s == pub ++ "#" ++ msg

/-- A concrete libsodium signing instance that always succeeds. -/
def sodium0 : String → String → Option String := fun m k => some (m ++ "|" ++ k)

/-! ### Claims -/

/-- C1: for every payload and every key pair whose verification accepts the
signatures produced by the signing key, a header built over the payload
verifies against the same payload with the public key whenever the check
happens inside the validity window, in particular at creation time. -/
theorem c1_header_roundtrip (P : SigPrims) (priv pub sid ukid body : String)
    (t ttl now : Nat)
    (hkey : ∀ m, P.verify pub m (P.sign priv m) = true)
    (h1 : t ≤ now) (h2 : now ≤ t + ttl) :
    isHeaderValid P (createAuthorizationHeader P body priv sid ukid t ttl)
      body pub now = true := by
  simp [isHeaderValid, createAuthorizationHeader, h1, h2, hkey]

/-- Witness for C1 at a concrete primitive instance, payload and window. -/
theorem c1_header_roundtrip_witness :
    isHeaderValid sig0
      (createAuthorizationHeader sig0 "payload" "KEY" "sub.example.com" "ukid" 10 300)
      "payload" "KEY" 100 = true :=
  c1_header_roundtrip sig0 "KEY" "KEY" "sub.example.com" "ukid" "payload" 10 300 100
    (fun m => by simp [sig0]) (by decide) (by decide)

/-- C2 counterexample: with the challenge field present but equal to the
empty string, decryption of the challenge fails, yet the handler answers 400
(the JavaScript falsiness test fires), not the 500 the claim requires for a
failing decryption. -/
theorem c2_on_subscribe_counterexample :
    decryptAES256ECB aes0 key0 "" = .error "Failed to decrypt challenge" ∧
    (onSubscribeHandler aes0 key0
      (.obj [("subscriber_id", .str "sub"), ("challenge", .str "")])).status = 400 ∧
    (400 : Nat) ≠ 500 :=
  ⟨rfl, rfl, by decide⟩

/-- C2 amended: a falsy challenge (absent or the empty string) is answered
400; a non-empty challenge string that decrypts is answered 200 with the
answer; a non-empty challenge string whose decryption fails is answered 500
with a generic message. -/
theorem c2_on_subscribe_cases (A : AesPrims) (key : List Nat) (body : JsVal) :
    (truthy (jget body "challenge") = false →
      onSubscribeHandler A key body =
        ⟨400, none, .json (.obj [("error", .str "Challenge is required")])⟩) ∧
    (∀ ch answer, jget body "challenge" = .str ch → ch ≠ "" →
      decryptAES256ECB A key ch = .ok answer →
      onSubscribeHandler A key body =
        ⟨200, none, .json (.obj [("answer", .str answer)])⟩) ∧
    (∀ ch msg, jget body "challenge" = .str ch → ch ≠ "" →
      decryptAES256ECB A key ch = .error msg →
      onSubscribeHandler A key body =
        ⟨500, none, .json (.obj [("error", .str "Internal server error")])⟩) := by
  refine ⟨fun h => ?_, fun ch answer hch hne hdec => ?_, fun ch msg hch hne hdec => ?_⟩
  · simp [onSubscribeHandler, h]
  · simp [onSubscribeHandler, hch, truthy, hne, hdec]
  · simp [onSubscribeHandler, hch, truthy, hne, hdec]

/-- Witness for the amended C2 at a concrete body with no challenge field. -/
theorem c2_on_subscribe_cases_witness :
    onSubscribeHandler aes0 key0 (.obj [("subscriber_id", .str "sub")]) =
      ⟨400, none, .json (.obj [("error", .str "Challenge is required")])⟩ :=
  (c2_on_subscribe_cases aes0 key0 (.obj [("subscriber_id", .str "sub")])).1 rfl

/-- C5: challenge decryption is deterministic — two results of
decryptAES256ECB at the same key and challenge are equal, whatever the block
cipher instance; the embedding takes no other input, so there is no hidden
state. -/
theorem c5_decrypt_deterministic (A : AesPrims) (key : List Nat)
    (challenge : String) (r₁ r₂ : Except String String)
    (h₁ : decryptAES256ECB A key challenge = r₁)
    (h₂ : decryptAES256ECB A key challenge = r₂) : r₁ = r₂ :=
  h₁ ▸ h₂

/-- Witness for C5 at a concrete key and challenge. -/
theorem c5_decrypt_deterministic_witness :
    (Except.error "Failed to decrypt challenge" : Except String String) =
      Except.error "Failed to decrypt challenge" :=
  c5_decrypt_deterministic aes0 key0 ""
    (.error "Failed to decrypt challenge") (.error "Failed to decrypt challenge") rfl rfl

/-- C6: an input that is not valid base64, or whose decoded ciphertext length
is not a multiple of 16, makes decryptAES256ECB return the single decryption
error, for every key and every block cipher instance; in particular it never
returns an .ok value, empty string included. -/
theorem c6_decrypt_malformed (A : AesPrims) (key : List Nat) (s : String)
    (h : base64Decode? s = none ∨
      ∃ ct, base64Decode? s = some ct ∧ ct.length % 16 ≠ 0) :
    decryptAES256ECB A key s = .error "Failed to decrypt challenge" := by
  unfold decryptAES256ECB
  rcases h with h | ⟨ct, hct, hlen⟩
  · rw [h]
    split <;> rfl
  · rw [hct]
    split
    · simp [hlen]
    · rfl

/-- Witness for C6 at a concrete non-base64 input. -/
theorem c6_decrypt_malformed_witness :
    decryptAES256ECB aes0 key0 "!!!" = .error "Failed to decrypt challenge" :=
  c6_decrypt_malformed aes0 key0 "!!!" (Or.inl rfl)

/-- C3 counterexample: a /search request whose body lacks the country field
is answered with status 500 and the fixed details string, not the 400 the
claim states, and the message does not name the missing field. -/
theorem c3_validation_counterexample :
    (searchHandler (.obj [("city", .str "std:080"), ("message", .obj [])])
      (.ok "hdr") true (.transportFailure "t")).status = 500 ∧
    ¬ (searchHandler (.obj [("city", .str "std:080"), ("message", .obj [])])
      (.ok "hdr") true (.transportFailure "t")).status = 400 :=
  ⟨by decide, by decide⟩

/-- C3 amended: /select answers missing required fields with 400 and a
details string naming the candidate fields, while /search answers them with
500 and the fixed details string missing items in request body. -/
theorem c3_validation_responses (body bodySel : JsVal)
    (signed signedSel : Except String String) (v vSel : Bool)
    (u uSel : AxiosOutcome) :
    ((truthy (jget body "country") = false ∨ truthy (jget body "city") = false ∨
        truthy (jget body "message") = false) →
      searchHandler body signed v u =
        ⟨500, none, .json (.obj [("error", .str "Search request failed"),
          ("details", .str "missing items in request body")])⟩) ∧
    ((truthy (jget bodySel "country") = false ∨
        truthy (jget bodySel "city") = false ∨
        truthy (jget bodySel "transaction_id") = false ∨
        truthy (jget bodySel "message") = false) →
      selectHandler bodySel signedSel vSel uSel =
        ⟨400, none, .json (.obj [("error", .str "Select request failed"),
          ("details",
            .str "Missing country, city, transaction_id, or message in request body")])⟩) := by
  constructor
  · intro h; rcases h with h | h | h <;> simp [searchHandler, h]
  · intro h; rcases h with h | h | h | h <;> simp [selectHandler, h]

/-- Witness for the amended C3 at concrete bodies missing the country
field. -/
theorem c3_validation_responses_witness :
    searchHandler (.obj []) (.ok "hdr") true (.transportFailure "t") =
      ⟨500, none, .json (.obj [("error", .str "Search request failed"),
        ("details", .str "missing items in request body")])⟩ ∧
    selectHandler (.obj []) (.ok "hdr") true (.transportFailure "t") =
      ⟨400, none, .json (.obj [("error", .str "Select request failed"),
        ("details",
          .str "Missing country, city, transaction_id, or message in request body")])⟩ :=
  ⟨(c3_validation_responses (.obj []) (.obj []) (.ok "hdr") (.ok "hdr") true true
      (.transportFailure "t") (.transportFailure "t")).1 (Or.inl rfl),
   (c3_validation_responses (.obj []) (.obj []) (.ok "hdr") (.ok "hdr") true true
      (.transportFailure "t") (.transportFailure "t")).2 (Or.inl rfl)⟩

/-- C4 counterexample: a request to the on_search callback with no
Authorization header and a body lacking context is answered 400, not the 401
the claim requires for every missing-header request. -/
theorem c4_auth_counterexample :
    (onSearchHandler (.obj []) none true).status = 400 ∧
    ¬ (onSearchHandler (.obj []) none true).status = 401 :=
  ⟨by decide, by decide⟩

/-- C4 amended: both signed callbacks validate the presence of context and
message in the body before reading the Authorization header: a falsy context
or message is answered 400 whatever the header; when both are present, a
missing (falsy) header is answered 401 and a present but invalid header is
answered 401. -/
theorem c4_auth_after_validation (body : JsVal) (auth : Option String) (v : Bool) :
    ((truthy (jget body "context") = false ∨ truthy (jget body "message") = false) →
      onSearchHandler body auth v =
        ⟨400, none, .json (.obj [("error", .str "Missing context or message in request body")])⟩ ∧
      onSelectCallbackHandler body auth v =
        ⟨400, none, .json (.obj [("error", .str "Missing context or message in request body")])⟩) ∧
    (truthy (jget body "context") = true → truthy (jget body "message") = true →
      ((auth = none ∨ auth = some "") →
        onSearchHandler body auth v =
          ⟨401, none, .json (.obj [("error", .str "Missing authorization header")])⟩ ∧
        onSelectCallbackHandler body auth v =
          ⟨401, none, .json (.obj [("error", .str "Missing authorization header")])⟩) ∧
      (∀ a, auth = some a → a ≠ "" → v = false →
        onSearchHandler body auth v =
          ⟨401, none, .json (.obj [("error", .str "Invalid authorization header")])⟩ ∧
        onSelectCallbackHandler body auth v =
          ⟨401, none, .json (.obj [("error", .str "Invalid authorization header")])⟩)) := by
  refine ⟨fun h => ?_, fun hc hm => ⟨fun h => ?_, fun a ha hne hv => ?_⟩⟩
  · rcases h with h | h <;>
      constructor <;> simp [onSearchHandler, onSelectCallbackHandler, h]
  · rcases h with h | h <;> subst h <;>
      constructor <;> simp [onSearchHandler, onSelectCallbackHandler, hc, hm]
  · subst ha; subst hv
    constructor <;> simp [onSearchHandler, onSelectCallbackHandler, hc, hm, hne]

/-- Witness for the amended C4 at a concrete body carrying context and
message and no Authorization header. -/
theorem c4_auth_after_validation_witness :
    onSearchHandler (.obj [("context", .obj []), ("message", .obj [])]) none true =
      ⟨401, none, .json (.obj [("error", .str "Missing authorization header")])⟩ :=
  (((c4_auth_after_validation (.obj [("context", .obj []), ("message", .obj [])])
      none true).2 rfl rfl).1 (Or.inl rfl)).1

/-- C7: the site verification handler answers a successful signing with the
fixed HTML template in which every occurrence of the placeholder is replaced
by the signMessage output, served as text/html, and answers a signing
failure with status 500. -/
theorem c7_site_verification (sodiumSign : String → String → Option String)
    (requestId signingPrivateKey : String) :
    (∀ sig, sodiumSign requestId signingPrivateKey = some sig →
      siteVerificationHandler sodiumSign requestId signingPrivateKey =
        ⟨200, some "text/html",
          .text (replaceAll htmlFile "SIGNED_UNIQUE_REQ_ID" sig)⟩) ∧
    (sodiumSign requestId signingPrivateKey = none →
      (siteVerificationHandler sodiumSign requestId signingPrivateKey).status = 500) := by
  constructor
  · intro sig h; simp [siteVerificationHandler, signMessage, h]
  · intro h; simp [siteVerificationHandler, signMessage, h]

/-- Witness for C7 at a concrete signing primitive. -/
theorem c7_site_verification_witness :
    siteVerificationHandler sodium0 "REQ123" "KEY" =
      ⟨200, some "text/html",
        .text (replaceAll htmlFile "SIGNED_UNIQUE_REQ_ID" "REQ123|KEY")⟩ :=
  (c7_site_verification sodium0 "REQ123" "KEY").1 "REQ123|KEY" rfl

/-- C8 counterexample: when the upstream lookup completes with status 201,
the handler answers 200, not the upstream status, so the status is not
forwarded verbatim. -/
theorem c8_lookup_counterexample :
    (lookupHandler (.ok "hdr") true (.response ⟨201, .str "created"⟩)).status = 200 ∧
    ¬ (lookupHandler (.ok "hdr") true (.response ⟨201, .str "created"⟩)).status = 201 :=
  ⟨by decide, by decide⟩

/-- C8 amended: when the upstream call resolves (2xx status under the axios
default), the handler returns the upstream body verbatim under the fixed
status 200; a non-2xx upstream response and a transport failure are both
answered 500, the former wrapping the upstream body as details; a header
construction failure is also answered 500. -/
theorem c8_lookup_forwarding (hdr e m : String) (v : Bool) (r : UpstreamResult) :
    (axiosResolves r.status = true →
      lookupHandler (.ok hdr) v (.response r) = ⟨200, none, .json r.data⟩) ∧
    (axiosResolves r.status = false →
      lookupHandler (.ok hdr) v (.response r) =
        ⟨500, none, .json (.obj [("error", .str "Failed to perform lookup"),
          ("details", r.data)])⟩) ∧
    (lookupHandler (.ok hdr) v (.transportFailure m) =
      ⟨500, none, .json (.obj [("error", .str "Failed to perform lookup")])⟩) ∧
    (lookupHandler (.error e) v (.response r) =
      ⟨500, none, .json (.obj [("error", .str "Failed to perform lookup")])⟩) := by
  refine ⟨fun h => ?_, fun h => ?_, rfl, rfl⟩
  · simp [lookupHandler, h]
  · simp [lookupHandler, h]

/-- Witness for the amended C8 at a concrete resolving upstream response. -/
theorem c8_lookup_forwarding_witness :
    lookupHandler (.ok "hdr") true (.response ⟨200, .str "subscribers"⟩) =
      ⟨200, none, .json (.str "subscribers")⟩ :=
  (c8_lookup_forwarding "hdr" "e" "m" true ⟨200, .str "subscribers"⟩).1 rfl

/-- C9: the success response of the on_select callback is unreachable — no
input produces status 200 — and every request carrying a truthy context and
message, a non-empty Authorization header and a valid signature is answered
500 with the ReferenceError message of the undefined identifier
selectResult. -/
theorem c9_on_select_unreachable_success :
    (∀ body auth v, (onSelectCallbackHandler body auth v).status ≠ 200) ∧
    (∀ body a, truthy (jget body "context") = true →
      truthy (jget body "message") = true → a ≠ "" →
      onSelectCallbackHandler body (some a) true =
        ⟨500, none, .json (.obj [("error", .str "Failed to process select results"),
          ("details", .str "selectResult is not defined")])⟩) := by
  constructor
  · intro body auth v
    rcases auth with _ | a <;> simp only [onSelectCallbackHandler] <;>
      split_ifs <;> decide
  · intro body a hc hm hne
    simp [onSelectCallbackHandler, hc, hm, hne]

/-- Witness for C9 at a concrete fully valid request. -/
theorem c9_on_select_unreachable_success_witness :
    onSelectCallbackHandler
      (.obj [("context", .obj []), ("message", .obj [("order", .obj [])])])
      (some "Signature") true =
      ⟨500, none, .json (.obj [("error", .str "Failed to process select results"),
        ("details", .str "selectResult is not defined")])⟩ :=
  c9_on_select_unreachable_success.2
    (.obj [("context", .obj []), ("message", .obj [("order", .obj [])])])
    "Signature" rfl rfl (by decide)

/-- C10: in the /subscribe registration payload, the subscriber_url field of
the first network_participant entry is the literal "/bapl" for every
configuration, in particular whatever the SUBSCRIBER_URL value carried by
the configuration. -/
theorem c10_subscriber_url_hardcoded (c : SubscribeConfig) :
    jget (jidx (jget (jget (subscribePayload c) "message") "network_participant") 0)
      "subscriber_url" = .str "/bapl" := by
  rfl

end Onboarding
